import Mathlib

/-!
Shallow embedding of the solar-system generation script
(`Birthdaysolarsystem.py`, two script variants concatenated in one file):
the orbital-mechanics math, the procedural random generation, the keyframe
baking and the renderer initialisation, together with theorems checking the
specification's claims against these definitions.
-/

/-! ## Renderer initialisation (source lines 10-21) -/

/-- Outcome of the renderer-initialisation section: the warnings printed and
whether an exception escaped the section.  The three booleans model whether
the node `defaultArnoldRenderOptions` already exists, whether the call
`loadPlugin` succeeds and whether the `setAttr` call succeeds. -/
structure RendererInit where
  warnings : List String
  raised : Bool

/-- Embedding of source lines 10-21: the Arnold plugin load and the renderer
assignment are each wrapped in a try/except block that catches any exception,
prints a warning and continues; no exception escapes the section. -/
def initRenderer (arnold_exists load_ok set_ok : Bool) : RendererInit :=
  let w1 : List String :=
    if arnold_exists then []
    else if load_ok then []
    else ["Warning: Arnold plugin (mtoa) could not be loaded. Some features may not work."]
  let w2 : List String :=
    if set_ok then []
    else ["Warning: Could not set Arnold as renderer. Continuing anyway..."]
  ⟨w1 ++ w2, false⟩

/-- The specification's claim that every failure of a called operation
propagates unhandled, stated for the renderer-initialisation section: any
failure of a guarded host call would make an exception escape. -/
def noFailureHandling : Prop :=
  ∀ arnold_exists load_ok set_ok : Bool,
    (arnold_exists = false ∧ load_ok = false) ∨ set_ok = false →
      (initRenderer arnold_exists load_ok set_ok).raised = true

/-! ## Planet data (source lines 43-52 and 623-632, identical tables) -/

/-- One row of the planets table. -/
structure Planet where
  name : String
  real_au : ℝ
  real_radius_km : ℝ
  period_days : ℝ
  eccentricity : ℝ
  inclination : ℝ
  axial_tilt : ℝ
  rotation_hours : ℝ
  start_angle : ℝ
  color : ℝ × ℝ × ℝ

def mercury : Planet := ⟨"mercury", 0.387, 2439, 88, 0.206, 7.0, 0.03, 1407.6, 94.9, (0.7, 0.7, 0.7)⟩

def venus : Planet := ⟨"venus", 0.723, 6052, 225, 0.007, 3.4, 177.4, 5832.5, 276.3, (0.9, 0.7, 0.4)⟩

def earth : Planet := ⟨"earth", 1.0, 6371, 365, 0.017, 0.0, 23.4, 24.0, 268.9, (0.2, 0.4, 0.8)⟩

def mars : Planet := ⟨"mars", 1.524, 3389, 687, 0.093, 1.9, 25.2, 24.6, 134.6, (0.8, 0.3, 0.2)⟩

def jupiter : Planet := ⟨"jupiter", 5.203, 69911, 4333, 0.048, 1.3, 3.1, 9.9, 172.1, (0.8, 0.6, 0.4)⟩

def saturn : Planet := ⟨"saturn", 9.537, 58232, 10759, 0.054, 2.5, 26.7, 10.7, 106.1, (0.9, 0.8, 0.6)⟩

def uranus : Planet := ⟨"uranus", 19.191, 25362, 30687, 0.046, 0.8, 97.8, 17.2, 334.0, (0.5, 0.8, 0.8)⟩

def neptune : Planet := ⟨"neptune", 30.069, 24622, 60190, 0.009, 1.8, 28.3, 16.1, 313.6, (0.2, 0.3, 0.9)⟩

def planets : List Planet := [mercury, venus, earth, mars, jupiter, saturn, uranus, neptune]

/-! ## Unit-scale compression functions (source lines 54-66) -/

noncomputable section

def compression : ℝ := 0.6

def base_scale : ℝ := 8

/-- `calculate_distance` from the source: `base_scale * (au ** compression)`. -/
def calculate_distance (au : ℝ) : ℝ := base_scale * au ^ compression

/-- `calculate_planet_size` from the source. -/
def calculate_planet_size (radius_km : ℝ) : ℝ :=
  let earth_radius_km : ℝ := 6371
  let earth_size_maya : ℝ := 0.5
  let scale_factor := earth_size_maya / earth_radius_km
  let size_compression : ℝ := 0.7
  (radius_km * scale_factor) * (radius_km / earth_radius_km) ^ (size_compression - 1)

/-- Modelled from the Python standard library: `math.radians` converts
degrees to radians, `radians x = x * pi / 180`. -/
def radians (x : ℝ) : ℝ := x * Real.pi / 180

/-! ## Elliptical orbit curve sampling (source lines 143-153 and 686-697) -/

/-- The i-th sampled orbit point: angle `(i / 100) * 2 * pi`, polar-ellipse
radius `a * (1 - e^2) / (1 + e * cos angle)`, point `(r cos, 0, r sin)`. -/
def orbitPoint (a e : ℝ) (i : ℕ) : ℝ × ℝ × ℝ :=
  let angle := (i : ℝ) / 100 * 2 * Real.pi
  let r := a * (1 - e ^ 2) / (1 + e * Real.cos angle)
  (r * Real.cos angle, 0, r * Real.sin angle)

/-- The orbit curve control points: `for i in range(num_points + 1)` with
`num_points = 100`, so 101 points. -/
def orbit_points (a e : ℝ) : List (ℝ × ℝ × ℝ) :=
  (List.range 101).map (orbitPoint a e)

/-! ## Inclination tilt (source lines 357-360 and 852-854) -/

/-- The tilt applied to an in-plane point `(x, 0, z)` in the first variant's
planet animation: `(x, -z * sin i, z * cos i)` (angle already in radians). -/
def tiltPoint (i x z : ℝ) : ℝ × ℝ × ℝ :=
  (x, -z * Real.sin i, z * Real.cos i)

/-- The standard rotation about the X-axis by angle `i`, of which the code's
tilt is the restriction to points with vanishing Y-coordinate. -/
def rotX (i : ℝ) : ℝ × ℝ × ℝ → ℝ × ℝ × ℝ :=
  fun p => (p.1, p.2.1 * Real.cos i - p.2.2 * Real.sin i,
            p.2.1 * Real.sin i + p.2.2 * Real.cos i)

/-! ## Axial rotation baking (source lines 373-389 and 871-891) -/

def frames_per_earth_year : ℕ := 1000

/-- `total_rotation_degrees` from the source: `hours_per_earth_year` is
`365.25 * 24` and the value is `360 * (hours_per_earth_year / rotation_hours)`. -/
def totalRotationDegrees (rotation_hours : ℝ) : ℝ :=
  360 * (365.25 * 24 / rotation_hours)

inductive TangentType where
  | linear
  | spline
deriving DecidableEq

/-- The rotateY animation baked for a planet: two keys and a tangent type. -/
structure RotYAnim where
  key1 : ℝ × ℝ
  key2 : ℝ × ℝ
  tangents : TangentType

/-- Embedding of the rotateY keyframing: value 0 at frame 1, at frame
`frames_per_earth_year` the total rotation (negated for Venus), and linear
tangents on both keys. -/
def bakeRotY (p : Planet) : RotYAnim :=
  ⟨((1 : ℝ), 0),
   ((frames_per_earth_year : ℝ),
    if p.name = "venus" then -(totalRotationDegrees p.rotation_hours)
    else totalRotationDegrees p.rotation_hours),
   TangentType.linear⟩

end

/-! ## Helper lemmas -/

theorem mercury_mem_planets : mercury ∈ planets := by
  unfold planets; exact List.mem_cons_self _ _

theorem venus_mem_planets : venus ∈ planets := by
  unfold planets
  exact List.mem_cons_of_mem _ (List.mem_cons_self _ _)

theorem planet_period_pos : ∀ p ∈ planets, 0 < p.period_days := by
  intro p hp
  fin_cases hp <;>
    norm_num [mercury, venus, earth, mars, jupiter, saturn, uranus, neptune]

/-- Rewriting of `calculate_planet_size` as a constant multiple of a power,
valid on positive inputs. -/
theorem calculate_planet_size_eq (r : ℝ) (hr : 0 < r) :
    calculate_planet_size r =
      0.5 / 6371 * (6371 : ℝ) ^ (0.3 : ℝ) * r ^ (0.7 : ℝ) := by
  have h6371 : (0 : ℝ) < 6371 := by norm_num
  have hdiv : (r / 6371 : ℝ) ^ ((0.7 : ℝ) - 1) =
      r ^ (-(0.3 : ℝ)) / (6371 : ℝ) ^ (-(0.3 : ℝ)) := by
    rw [Real.div_rpow hr.le h6371.le]
    norm_num
  have hneg : (6371 : ℝ) ^ (-(0.3 : ℝ)) = ((6371 : ℝ) ^ (0.3 : ℝ))⁻¹ :=
    Real.rpow_neg h6371.le _
  have hsplit : r * r ^ (-(0.3 : ℝ)) = r ^ (0.7 : ℝ) := by
    have h1 : r = r ^ (1 : ℝ) := (Real.rpow_one r).symm
    calc r * r ^ (-(0.3 : ℝ)) = r ^ (1 : ℝ) * r ^ (-(0.3 : ℝ)) := by rw [← h1]
    _ = r ^ ((1 : ℝ) + -(0.3 : ℝ)) := (Real.rpow_add hr _ _).symm
    _ = r ^ (0.7 : ℝ) := by norm_num
  have hinv : ((6371 : ℝ) ^ (-(0.3 : ℝ)))⁻¹ = (6371 : ℝ) ^ (0.3 : ℝ) := by
    rw [hneg, inv_inv]
  have key : (r / 6371 : ℝ) ^ ((0.7 : ℝ) - 1) =
      r ^ (-(0.3 : ℝ)) * (6371 : ℝ) ^ (0.3 : ℝ) := by
    rw [hdiv, div_eq_mul_inv, hinv]
  simp only [calculate_planet_size]
  rw [key, ← hsplit]
  ring

/-! ## Claim C3: failure handling -/

/-- C3 counterexample: the claim that the program contains no failure
handling is false; with the Arnold node missing and the plugin load failing,
the try/except at source lines 12-15 catches the failure and execution
continues with a warning instead of propagating it. -/
theorem c3_counterexample : ¬ noFailureHandling := by
  intro h
  have := h false false true (Or.inl ⟨rfl, rfl⟩)
  simp [initRenderer] at this

/-- C3 amended: the program contains exactly two failure-handling sites, the
Arnold plugin load and the renderer assignment; each catches any exception,
prints one warning, and continues, so the initialisation section never
raises and its warning count matches exactly the failed guarded calls. -/
theorem c3_failure_handling_sites (a l s : Bool) :
    (initRenderer a l s).raised = false ∧
    (initRenderer a l s).warnings.length =
      (if a || l then 0 else 1) + (if s then 0 else 1) := by
  cases a <;> cases l <;> cases s <;> simp [initRenderer]

/-! ## Claim C5: unit-scale compression functions -/

/-- C5: `calculate_distance au = 8 * au ^ 0.6`, with value 8 at 1 AU, and
strictly increasing on positive inputs; `calculate_planet_size r =
r * (0.5 / 6371) * (r / 6371) ^ (-0.3)`, with value 0.5 at Earth's radius
6371 km, and strictly increasing on positive inputs. -/
theorem c5_scale_functions :
    (∀ au : ℝ, 0 < au → calculate_distance au = 8 * au ^ (0.6 : ℝ)) ∧
    calculate_distance 1 = 8 ∧
    (∀ a b : ℝ, 0 < a → a < b → calculate_distance a < calculate_distance b) ∧
    (∀ r : ℝ, 0 < r →
      calculate_planet_size r = r * (0.5 / 6371) * (r / 6371) ^ (-(0.3 : ℝ))) ∧
    calculate_planet_size 6371 = 0.5 ∧
    (∀ a b : ℝ, 0 < a → a < b → calculate_planet_size a < calculate_planet_size b) := by
  refine ⟨?_, ?_, ?_, ?_, ?_, ?_⟩
  · intro au _
    simp [calculate_distance, base_scale, compression]
  · simp [calculate_distance, base_scale, compression, Real.one_rpow]
  · intro a b ha hab
    simp only [calculate_distance, base_scale, compression]
    have := Real.rpow_lt_rpow ha.le hab (by norm_num : (0 : ℝ) < 0.6)
    nlinarith
  · intro r _
    simp only [calculate_planet_size]
    norm_num
  · simp only [calculate_planet_size]
    norm_num [Real.one_rpow]
  · intro a b ha hab
    rw [calculate_planet_size_eq a ha, calculate_planet_size_eq b (ha.trans hab)]
    have hc : (0 : ℝ) < 0.5 / 6371 * (6371 : ℝ) ^ (0.3 : ℝ) := by
      have := Real.rpow_pos_of_pos (by norm_num : (0 : ℝ) < 6371) (0.3 : ℝ)
      positivity
    have := Real.rpow_lt_rpow ha.le hab (by norm_num : (0 : ℝ) < 0.7)
    nlinarith

theorem c5_scale_functions_witness :
    calculate_distance 1 < calculate_distance 2 ∧
    calculate_planet_size 1 < calculate_planet_size 2 :=
  ⟨c5_scale_functions.2.2.1 1 2 one_pos (by norm_num),
   c5_scale_functions.2.2.2.2.2 1 2 one_pos (by norm_num)⟩

/-! ## Claim C6: the inclination tilt is a rotation about the X-axis -/

/-- C6: the tilt `(x, 0, z) ↦ (x, -z sin i, z cos i)` is the rotation about
the X-axis restricted to in-plane points; it preserves the Euclidean norm,
and composing with the rotation for angle `-i` is the identity. -/
theorem c6_inclination_rotation (i x z : ℝ) :
    tiltPoint i x z = rotX i (x, 0, z) ∧
    x ^ 2 + (z * Real.sin i) ^ 2 + (z * Real.cos i) ^ 2 = x ^ 2 + z ^ 2 ∧
    rotX (-i) (tiltPoint i x z) = (x, 0, z) ∧
    (∀ p : ℝ × ℝ × ℝ, rotX (-i) (rotX i p) = p) := by
  have hsc := Real.sin_sq_add_cos_sq i
  refine ⟨?_, by linear_combination z ^ 2 * hsc, ?_, ?_⟩
  · simp only [tiltPoint, rotX]
    exact congrArg₂ Prod.mk (by ring) (congrArg₂ Prod.mk (by ring) (by ring))
  · simp only [tiltPoint, rotX, Real.sin_neg, Real.cos_neg]
    exact congrArg₂ Prod.mk rfl
      (congrArg₂ Prod.mk (by ring) (by linear_combination z * hsc))
  · rintro ⟨a, b, c⟩
    simp only [rotX, Real.sin_neg, Real.cos_neg]
    exact congrArg₂ Prod.mk rfl
      (congrArg₂ Prod.mk (by linear_combination b * hsc) (by linear_combination c * hsc))

/-! ## Claim C7: axial rotation baking -/

/-- C7: the baked rotateY animation of every planet has value 0 at frame 1,
value `360 * (365.25 * 24 / rotation_hours)` at frame 1000 (negated exactly
for Venus), and linear tangents. -/
theorem c7_rotY_keyframes (p : Planet) (_hp : p ∈ planets) :
    (bakeRotY p).key1 = (1, 0) ∧
    (bakeRotY p).tangents = TangentType.linear ∧
    (p.name ≠ "venus" →
      (bakeRotY p).key2 = (1000, 360 * (365.25 * 24 / p.rotation_hours))) ∧
    (p.name = "venus" →
      (bakeRotY p).key2 = (1000, -(360 * (365.25 * 24 / p.rotation_hours)))) := by
  refine ⟨rfl, rfl, ?_, ?_⟩ <;> intro h <;>
    simp [bakeRotY, totalRotationDegrees, h, frames_per_earth_year]

theorem c7_rotY_keyframes_witness :
    (bakeRotY mercury).key2 = (1000, 360 * (365.25 * 24 / mercury.rotation_hours)) ∧
    (bakeRotY venus).key2 = (1000, -(360 * (365.25 * 24 / venus.rotation_hours))) :=
  ⟨(c7_rotY_keyframes mercury mercury_mem_planets).2.2.1 (by simp [mercury]),
   (c7_rotY_keyframes venus venus_mem_planets).2.2.2 (by simp [venus])⟩

/-! ## Claim C4: elliptical orbit sampling -/

/-- C4: the orbit curve is built from exactly 101 points; point `i` lies at
angle `(i / 100) * 2 * pi` with the polar-ellipse radius
`a * (1 - e^2) / (1 + e * cos theta)`, coordinates `(r cos, 0, r sin)`, and
the first and last sampled points coincide. -/
theorem c4_orbit_sampling (a e : ℝ) :
    (orbit_points a e).length = 101 ∧
    (∀ i : ℕ, i < 101 →
      (orbit_points a e).getD i (0, 0, 0) =
        (a * (1 - e ^ 2) / (1 + e * Real.cos ((i : ℝ) / 100 * 2 * Real.pi)) *
           Real.cos ((i : ℝ) / 100 * 2 * Real.pi),
         0,
         a * (1 - e ^ 2) / (1 + e * Real.cos ((i : ℝ) / 100 * 2 * Real.pi)) *
           Real.sin ((i : ℝ) / 100 * 2 * Real.pi))) ∧
    (orbit_points a e).getD 0 (0, 0, 0) = (orbit_points a e).getD 100 (0, 0, 0) := by
  refine ⟨by simp [orbit_points], ?_, ?_⟩
  · intro i hi
    simp only [orbit_points, List.getD_eq_getElem?_getD, List.getElem?_map,
      List.getElem?_range hi, Option.map_some', Option.getD_some]
    rfl
  · simp only [orbit_points, List.getD_eq_getElem?_getD, List.getElem?_map,
      List.getElem?_range (show (0 : ℕ) < 101 by norm_num),
      List.getElem?_range (show (100 : ℕ) < 101 by norm_num),
      Option.map_some', Option.getD_some]
    have h100 : ((100 : ℕ) : ℝ) / 100 * 2 * Real.pi = 2 * Real.pi := by
      norm_num
    have h0 : ((0 : ℕ) : ℝ) / 100 * 2 * Real.pi = 0 := by norm_num
    simp only [orbitPoint, h0, h100, Real.cos_zero, Real.sin_zero,
      Real.cos_two_pi, Real.sin_two_pi, mul_zero, mul_one]

theorem c4_orbit_sampling_witness :
    (orbit_points 8 0.206).getD 50 (0, 0, 0) =
      (8 * (1 - (0.206 : ℝ) ^ 2) /
         (1 + 0.206 * Real.cos (((50 : ℕ) : ℝ) / 100 * 2 * Real.pi)) *
         Real.cos (((50 : ℕ) : ℝ) / 100 * 2 * Real.pi),
       0,
       8 * (1 - (0.206 : ℝ) ^ 2) /
         (1 + 0.206 * Real.cos (((50 : ℕ) : ℝ) / 100 * 2 * Real.pi)) *
         Real.sin (((50 : ℕ) : ℝ) / 100 * 2 * Real.pi)) :=
  (c4_orbit_sampling 8 0.206).2.1 50 (by norm_num)

/-! ## Kepler animation math (source lines 331-360 and 811-857) -/

noncomputable section

/-- Modelled from the Python standard library: `math.atan2 y x` is the
four-quadrant arctangent, the angle of the point `(x, y)`. -/
def atan2 (y x : ℝ) : ℝ :=
  if 0 < x then Real.arctan (y / x)
  else if x < 0 then
    (if 0 ≤ y then Real.arctan (y / x) + Real.pi else Real.arctan (y / x) - Real.pi)
  else
    (if 0 < y then Real.pi / 2 else if y < 0 then -(Real.pi / 2) else 0)

/-- One Newton step of the Kepler-equation solve, verbatim from the loop
body `E = E - (E - e*sin(E) - M) / (1 - e*cos(E))` (source line 346). -/
def newtonStep (e M E : ℝ) : ℝ :=
  E - (E - e * Real.sin E - M) / (1 - e * Real.cos E)

/-- The value of `E` after `n` iterations of the Newton loop, starting from
`E = M` (source lines 344-346). -/
def keplerE (e M : ℝ) : ℕ → ℝ
  | 0 => M
  | n + 1 => newtonStep e M (keplerE e M n)

/-- The true anomaly computed from an eccentric anomaly (source lines
348-351). -/
def trueAnomaly (e E : ℝ) : ℝ :=
  2 * atan2 (Real.sqrt (1 + e) * Real.sin (E / 2))
    (Real.sqrt (1 - e) * Real.cos (E / 2))

/-- First variant's planet position for one keyframe: 5 Newton iterations,
true anomaly, focal polar radius, then the inclination tilt (source lines
338-360).  `M` is the mean anomaly in radians. -/
def planetPosV1 (a e incl M : ℝ) : ℝ × ℝ × ℝ :=
  let E := keplerE e M 5
  let nu := trueAnomaly e E
  let r := a * (1 - e ^ 2) / (1 + e * Real.cos nu)
  let x_flat := r * Real.cos nu
  let z_flat := r * Real.sin nu
  (x_flat, -z_flat * Real.sin (radians incl), z_flat * Real.cos (radians incl))

/-- The mean anomaly in degrees at keyframe `k` of 40 in the first variant:
`start_angle - (k / 40) * (360 * (365.25 / period_days))` (source lines
334-341). -/
def meanAnomalyDeg (start_angle period_days : ℝ) (k : ℕ) : ℝ :=
  start_angle - (k : ℝ) / 40 * (360 * (365.25 / period_days))

/-- The mean anomaly in degrees at keyframe `k` of 40 in the second variant
(source lines 822-838), character-for-character the same formula. -/
def meanAnomalyDegV2 (start_angle period_days : ℝ) (k : ℕ) : ℝ :=
  start_angle - (k : ℝ) / 40 * (360 * (365.25 / period_days))

/-- Second variant's planet position for one keyframe: first-order
approximation `E = M + e*sin(M)`, parametric ellipse with the Sun at a
focus, then its inclination tilt (source lines 813-854). -/
def planetPosV2 (a e incl M : ℝ) : ℝ × ℝ × ℝ :=
  let semi_minor := a * Real.sqrt (1 - e ^ 2)
  let focal_distance := a * e
  let E := M + e * Real.sin M
  let x := a * Real.cos E - focal_distance
  let z := semi_minor * Real.sin E
  (x, z * Real.sin (radians incl), z * Real.cos (radians incl))

end

theorem keplerE_eq_iterate (e M : ℝ) (n : ℕ) :
    keplerE e M n =
      (fun E => E - (E - e * Real.sin E - M) / (1 - e * Real.cos E))^[n] M := by
  induction n with
  | zero => rfl
  | succ n ih =>
    rw [Function.iterate_succ_apply']
    show newtonStep e M (keplerE e M n) = _
    rw [ih]
    rfl

/-! ## Claim C1: Newton iteration for Kepler's equation -/

/-- C1: for eccentricity `0 ≤ e < 1` and any keyframe mean anomaly `M`, the
computed eccentric anomaly is the result of 5 Newton steps
`E - (E - e sin E - M) / (1 - e cos E)` started from `E = M`, and the
planet's position comes from the true anomaly of that `E` through the focal
polar equation `r = a (1 - e^2) / (1 + e cos nu)`. -/
theorem c1_newton_kepler (a e incl M : ℝ) (_he0 : 0 ≤ e) (_he1 : e < 1) :
    keplerE e M 5 =
      (fun E => E - (E - e * Real.sin E - M) / (1 - e * Real.cos E))^[5] M ∧
    planetPosV1 a e incl M =
      (a * (1 - e ^ 2) / (1 + e * Real.cos (trueAnomaly e (keplerE e M 5))) *
         Real.cos (trueAnomaly e (keplerE e M 5)),
       -(a * (1 - e ^ 2) / (1 + e * Real.cos (trueAnomaly e (keplerE e M 5))) *
          Real.sin (trueAnomaly e (keplerE e M 5))) * Real.sin (radians incl),
       a * (1 - e ^ 2) / (1 + e * Real.cos (trueAnomaly e (keplerE e M 5))) *
         Real.sin (trueAnomaly e (keplerE e M 5)) * Real.cos (radians incl)) :=
  ⟨keplerE_eq_iterate e M 5, rfl⟩

theorem c1_newton_kepler_witness :
    keplerE 0.017 (radians 268.9) 5 =
      (fun E => E - (E - 0.017 * Real.sin E - radians 268.9) /
        (1 - 0.017 * Real.cos E))^[5] (radians 268.9) :=
  (c1_newton_kepler 8 0.017 0 (radians 268.9) (by norm_num) (by norm_num)).1

/-! ## Claim C10: counter-clockwise motion of the mean anomaly -/

/-- C10: for every planet the mean anomaly sequence
`M_k = start_angle - (k / 40) * 360 * (365.25 / period_days)` is strictly
decreasing over the 41 keyframes, and the per-keyframe decrement is
strictly larger in magnitude for planets with smaller `period_days`. -/
theorem c10_mean_anomaly_decreasing (p : Planet) (hp : p ∈ planets)
    (q : Planet) (hq : q ∈ planets) (k : ℕ) (_hk : k < 40)
    (hpq : p.period_days < q.period_days) :
    meanAnomalyDeg p.start_angle p.period_days k =
      p.start_angle - (k : ℝ) / 40 * 360 * (365.25 / p.period_days) ∧
    meanAnomalyDeg p.start_angle p.period_days (k + 1) <
      meanAnomalyDeg p.start_angle p.period_days k ∧
    meanAnomalyDeg q.start_angle q.period_days k -
        meanAnomalyDeg q.start_angle q.period_days (k + 1) <
      meanAnomalyDeg p.start_angle p.period_days k -
        meanAnomalyDeg p.start_angle p.period_days (k + 1) := by
  have hpp := planet_period_pos p hp
  have hqp := planet_period_pos q hq
  have hstep : ∀ s d : ℝ, meanAnomalyDeg s d k - meanAnomalyDeg s d (k + 1) =
      1 / 40 * (360 * (365.25 / d)) := by
    intro s d
    simp only [meanAnomalyDeg]
    push_cast
    ring
  refine ⟨by simp only [meanAnomalyDeg]; ring, ?_, ?_⟩
  · have h1 := hstep p.start_angle p.period_days
    have hpos : 0 < (1 / 40 : ℝ) * (360 * (365.25 / p.period_days)) := by positivity
    linarith
  · rw [hstep, hstep]
    have hlt : 365.25 / q.period_days < 365.25 / p.period_days :=
      div_lt_div_of_pos_left (by norm_num) hpp hpq
    nlinarith

theorem c10_mean_anomaly_decreasing_witness :
    meanAnomalyDeg mercury.start_angle mercury.period_days 1 <
      meanAnomalyDeg mercury.start_angle mercury.period_days 0 ∧
    meanAnomalyDeg venus.start_angle venus.period_days 0 -
        meanAnomalyDeg venus.start_angle venus.period_days 1 <
      meanAnomalyDeg mercury.start_angle mercury.period_days 0 -
        meanAnomalyDeg mercury.start_angle mercury.period_days 1 :=
  (c10_mean_anomaly_decreasing mercury mercury_mem_planets venus venus_mem_planets
    0 (by norm_num) (by norm_num [mercury, venus])).2

/-! ## Procedural random generation (source lines 194-288 and 759-803) -/

/-- An abstract pseudo-random number generator as used through Python's
`random` module: a state type, `seed` resetting the state from an integer,
and the three drawing operations the scripts use.  Determinism of the
scripts holds for every implementation. -/
structure PRNG where
  S : Type
  seed : ℕ → S
  uniform : ℝ → ℝ → S → ℝ × S
  rand : S → ℝ × S
  randint : ℤ → ℤ → S → ℤ × S

/-- Runs `n` copies of a stateful draw, collecting the results in order
(the embedding of a `for i in range(n)` loop of draws). -/
def runDraws {α : Type} (σ : Type) (f : σ → α × σ) : ℕ → σ → List α × σ
  | 0, s => ([], s)
  | n + 1, s =>
    let r := f s
    let rest := runDraws σ f n r.2
    (r.1 :: rest.1, rest.2)

/-- Everything drawn and derived for one background star (source lines
199-216): angles, position, size (with the 90% small / 10% large branch on
`random.random()`), and shader emission. -/
structure StarObj where
  theta : ℝ
  phi : ℝ
  x : ℝ
  y : ℝ
  z : ℝ
  size : ℝ
  emission : ℝ

noncomputable section

/-- One iteration of the star loop, drawing in the source's order. -/
def drawStar (g : PRNG) (s : g.S) : StarObj × g.S :=
  let star_distance : ℝ := 120
  let t := g.uniform 0 (2 * Real.pi) s
  let p := g.uniform 0 Real.pi t.2
  let x := star_distance * Real.sin p.1 * Real.cos t.1
  let y := star_distance * Real.sin p.1 * Real.sin t.1
  let z := star_distance * Real.cos p.1
  let c := g.rand p.2
  let sz := if c.1 < 0.9 then g.uniform 0.05 0.15 c.2 else g.uniform 0.15 0.3 c.2
  let em := g.uniform 1.0 2.0 sz.2
  (⟨t.1, p.1, x, y, z, sz.1, em.1⟩, em.2)

/-- The star field: `random.seed(123)` then 1800 stars; the incoming state
(whatever it was before the seed call) is discarded by the seeding. -/
def genStars (g : PRNG) (_s_in : g.S) : List StarObj × g.S :=
  runDraws g.S (drawStar g) 1800 (g.seed 123)

end

/-- Everything drawn and derived for one animated asteroid of the first
variant (source lines 234-288). -/
structure Asteroid where
  distance_au : ℝ
  distance : ℝ
  start_angle : ℝ
  incl : ℝ
  x : ℝ
  y_offset : ℝ
  z : ℝ
  size : ℝ
  shape_type : ℤ
  rot : ℝ × ℝ × ℝ
  color : ℝ × ℝ × ℝ

noncomputable section

/-- One iteration of the first variant's asteroid loop, drawing in the
source's order. -/
def drawAsteroid (g : PRNG) (s : g.S) : Asteroid × g.S :=
  let dau := g.uniform 2.2 3.2 s
  let distance := calculate_distance dau.1
  let sa := g.uniform 0 360 dau.2
  let iv := g.uniform (-2) 2 sa.2
  let x := distance * Real.cos (radians sa.1)
  let z := distance * Real.sin (radians sa.1)
  let yy := g.uniform (-0.2) 0.2 iv.2
  let sz := g.uniform 0.02 0.08 yy.2
  let shape := g.randint 1 4 sz.2
  let r1 := g.uniform 0 360 shape.2
  let r2 := g.uniform 0 360 r1.2
  let r3 := g.uniform 0 360 r2.2
  let br := g.uniform 0.35 0.5 r3.2
  let bg := g.uniform 0.25 0.35 br.2
  let bb := g.uniform 0.15 0.25 bg.2
  (⟨dau.1, distance, sa.1, iv.1, x, yy.1, z, sz.1, shape.1,
    (r1.1, r2.1, r3.1), (br.1, bg.1, bb.1)⟩, bb.2)

/-- The first variant's asteroid belt: `random.seed(456)` then 300
asteroids. -/
def genAsteroids (g : PRNG) (_s_in : g.S) : List Asteroid × g.S :=
  runDraws g.S (drawAsteroid g) 300 (g.seed 456)

end

/-- Everything drawn for one asteroid of the second variant (source lines
762-803). -/
structure AsteroidB where
  distance : ℝ
  angle : ℝ
  size : ℝ
  scale : ℝ × ℝ × ℝ
  rot : ℝ × ℝ × ℝ
  x : ℝ
  y : ℝ
  z : ℝ
  gray : ℝ
  brown : ℝ

noncomputable section

/-- One iteration of the second variant's asteroid loop, drawing in the
source's order; here the distance is drawn directly in scene units between
`calculate_distance 2.2` and `calculate_distance 3.2`. -/
def drawAsteroidB (g : PRNG) (s : g.S) : AsteroidB × g.S :=
  let d := g.uniform (calculate_distance 2.2) (calculate_distance 3.2) s
  let an := g.uniform 0 360 d.2
  let sz := g.uniform 0.03 0.12 an.2
  let sx := g.uniform 0.5 2.0 sz.2
  let sy := g.uniform 0.5 2.0 sx.2
  let sz3 := g.uniform 0.5 2.0 sy.2
  let r1 := g.uniform 0 360 sz3.2
  let r2 := g.uniform 0 360 r1.2
  let r3 := g.uniform 0 360 r2.2
  let x := d.1 * Real.cos (radians an.1)
  let z := d.1 * Real.sin (radians an.1)
  let yy := g.uniform (-0.3) 0.3 r3.2
  let gray := g.uniform 0.25 0.5 yy.2
  let brown := g.uniform 0.6 0.9 gray.2
  (⟨d.1, an.1, sz.1, (sx.1, sy.1, sz3.1), (r1.1, r2.1, r3.1),
    x, yy.1, z, gray.1, brown.1⟩, brown.2)

/-- The second variant's asteroid belt: `random.seed(42)` then 200
asteroids. -/
def genAsteroidsB (g : PRNG) (_s_in : g.S) : List AsteroidB × g.S :=
  runDraws g.S (drawAsteroidB g) 200 (g.seed 42)

end

/-! ## Claim C8: determinism of the procedural content -/

/-- C8: the star field and both asteroid belts are generated right after
fixed `random.seed` calls (123, 456 and 42 respectively), so two runs of
the program starting from arbitrary generator states produce identical
stars and asteroids, for every generator implementation. -/
theorem c8_deterministic_generation (g : PRNG) (s1 s2 : g.S) :
    (genStars g s1).1 = (genStars g s2).1 ∧
    (genAsteroids g s1).1 = (genAsteroids g s2).1 ∧
    (genAsteroidsB g s1).1 = (genAsteroidsB g s2).1 :=
  ⟨rfl, rfl, rfl⟩

/-! ## Asteroid animation (source lines 290-329) -/

noncomputable section

/-- Kepler's third law as used by the source: the orbital period in Earth
years is `sqrt(distance_au ** 3)` (source line 300). -/
def asteroidPeriod (au : ℝ) : ℝ := Real.sqrt (au ^ 3)

/-- The total angle in degrees an asteroid sweeps over the 1000-frame year:
`360 * (1 / period)` (source lines 301-302). -/
def asteroidTotalRotation (au : ℝ) : ℝ := 360 * (1 / asteroidPeriod au)

/-- The angle in degrees of an asteroid at keyframe `k` of 20 (source lines
305-309). -/
def asteroidAngleDeg (ast : Asteroid) (k : ℕ) : ℝ :=
  ast.start_angle - (k : ℝ) / 20 * asteroidTotalRotation ast.distance_au

/-- The keyed position of an asteroid at keyframe `k` of 20 (source lines
310-321): polar position at the current angle, then the slight inclination
tilt `y = y_offset - z sin(i)`, `z = z cos(i)`. -/
def asteroidKeyPos (ast : Asteroid) (k : ℕ) : ℝ × ℝ × ℝ :=
  let angle_rad := radians (asteroidAngleDeg ast k)
  let x := ast.distance * Real.cos angle_rad
  let z := ast.distance * Real.sin angle_rad
  let inclination_rad := radians ast.incl
  (x, ast.y_offset - z * Real.sin inclination_rad, z * Real.cos inclination_rad)

end

/-! ## Claim C9: asteroid-belt invariants -/

theorem runDraws_mem {α : Type} (σ : Type) (f : σ → α × σ) :
    ∀ (n : ℕ) (s : σ) (a : α), a ∈ (runDraws σ f n s).1 → ∃ s2, a = (f s2).1 := by
  intro n
  induction n with
  | zero => intro s a ha; simp [runDraws] at ha
  | succ n ih =>
    intro s a ha
    simp only [runDraws, List.mem_cons] at ha
    rcases ha with h | h
    · exact ⟨s, h⟩
    · exact ih _ a h

/-- Modelled from the Python standard library: `random.uniform lo hi`
returns a value inside the closed interval from `lo` to `hi`. -/
def UniformInRange (g : PRNG) : Prop :=
  ∀ (lo hi : ℝ) (s : g.S), lo ≤ hi →
    lo ≤ (g.uniform lo hi s).1 ∧ (g.uniform lo hi s).1 ≤ hi

theorem drawAsteroid_au_mem (g : PRNG) (hg : UniformInRange g) (s : g.S) :
    2.2 ≤ (drawAsteroid g s).1.distance_au ∧ (drawAsteroid g s).1.distance_au ≤ 3.2 :=
  hg 2.2 3.2 s (by norm_num)

theorem drawAsteroid_incl_mem (g : PRNG) (hg : UniformInRange g) (s : g.S) :
    -2 ≤ (drawAsteroid g s).1.incl ∧ (drawAsteroid g s).1.incl ≤ 2 :=
  hg (-2) 2 ((g.uniform 0 360 (g.uniform 2.2 3.2 s).2).2) (by norm_num)

theorem calculate_distance_pos (au : ℝ) (h : 0 < au) : 0 < calculate_distance au := by
  simp only [calculate_distance, base_scale]
  have := Real.rpow_pos_of_pos h compression
  nlinarith

/-- The horizontal distance from the Y-axis of an asteroid keyframe equals
the asteroid's fixed orbit radius `calculate_distance distance_au`. -/
theorem asteroid_horizontal_distance (ast : Asteroid)
    (hincl : -2 ≤ ast.incl ∧ ast.incl ≤ 2)
    (hdist : ast.distance = calculate_distance ast.distance_au)
    (hau : 2.2 ≤ ast.distance_au) (k : ℕ) :
    Real.sqrt ((asteroidKeyPos ast k).1 ^ 2 +
        (asteroidKeyPos ast k).2.2 ^ 2 / Real.cos (radians ast.incl) ^ 2) =
      calculate_distance ast.distance_au := by
  have hpi := Real.pi_pos
  have hlt : radians ast.incl < Real.pi / 2 := by
    simp only [radians]; nlinarith [hincl.2]
  have hgt : -(Real.pi / 2) < radians ast.incl := by
    simp only [radians]; nlinarith [hincl.1]
  have hcos : 0 < Real.cos (radians ast.incl) := Real.cos_pos_of_mem_Ioo ⟨hgt, hlt⟩
  have hd0 : 0 < calculate_distance ast.distance_au :=
    calculate_distance_pos _ (by linarith)
  have hne : Real.cos (radians ast.incl) ≠ 0 := ne_of_gt hcos
  simp only [asteroidKeyPos]
  rw [hdist]
  have key : (calculate_distance ast.distance_au *
        Real.cos (radians (asteroidAngleDeg ast k))) ^ 2 +
      (calculate_distance ast.distance_au *
          Real.sin (radians (asteroidAngleDeg ast k)) *
          Real.cos (radians ast.incl)) ^ 2 / Real.cos (radians ast.incl) ^ 2 =
      calculate_distance ast.distance_au ^ 2 := by
    field_simp
    linear_combination calculate_distance ast.distance_au ^ 2 *
      Real.cos (radians ast.incl) ^ 2 *
      Real.sin_sq_add_cos_sq (radians (asteroidAngleDeg ast k))
  rw [key, Real.sqrt_sq hd0.le]

theorem asteroidTotalRotation_lt (a1 a2 : ℝ) (h1 : 2.2 ≤ a1) (h12 : a1 < a2) :
    asteroidTotalRotation a2 < asteroidTotalRotation a1 := by
  have h1p : (0 : ℝ) < a1 := by linarith
  have hcube : a1 ^ 3 < a2 ^ 3 := pow_lt_pow_left₀ h12 h1p.le (by norm_num)
  have hs1 : 0 < asteroidPeriod a1 := Real.sqrt_pos.mpr (by positivity)
  have hs : asteroidPeriod a1 < asteroidPeriod a2 := Real.sqrt_lt_sqrt (by positivity) hcube
  have := one_div_lt_one_div_of_lt hs1 hs
  simp only [asteroidTotalRotation]
  nlinarith

/-- C9: every animated asteroid is sampled with `distance_au` in [2.2, 3.2];
its scene distance is `calculate_distance distance_au`; at each of the 21
keyframes the horizontal distance from the Y-axis equals that fixed radius;
the period is `sqrt(distance_au ^ 3)` (Kepler's third law); the swept angle
over the year equals the total rotation, which is strictly smaller for
asteroids with strictly larger semi-major axis. -/
theorem c9_asteroid_belt_invariants (g : PRNG) (hg : UniformInRange g)
    (s0 : g.S) (ast : Asteroid) (hast : ast ∈ (genAsteroids g s0).1) (k : ℕ)
    (_hk : k ≤ 20) (ast2 : Asteroid) (_hast2 : ast2 ∈ (genAsteroids g s0).1)
    (hlt : ast.distance_au < ast2.distance_au) :
    (2.2 ≤ ast.distance_au ∧ ast.distance_au ≤ 3.2) ∧
    ast.distance = calculate_distance ast.distance_au ∧
    Real.sqrt ((asteroidKeyPos ast k).1 ^ 2 +
        (asteroidKeyPos ast k).2.2 ^ 2 / Real.cos (radians ast.incl) ^ 2) =
      calculate_distance ast.distance_au ∧
    asteroidPeriod ast.distance_au = Real.sqrt (ast.distance_au ^ 3) ∧
    asteroidAngleDeg ast 0 - asteroidAngleDeg ast 20 =
      asteroidTotalRotation ast.distance_au ∧
    asteroidTotalRotation ast2.distance_au < asteroidTotalRotation ast.distance_au := by
  obtain ⟨s1, rfl⟩ := runDraws_mem _ _ 300 (g.seed 456) ast hast
  have hau := drawAsteroid_au_mem g hg s1
  have hincl := drawAsteroid_incl_mem g hg s1
  refine ⟨hau, rfl, ?_, rfl, ?_, ?_⟩
  · exact asteroid_horizontal_distance _ hincl rfl hau.1 k
  · simp only [asteroidAngleDeg]
    push_cast
    ring
  · exact asteroidTotalRotation_lt _ _ hau.1 hlt

@[reducible] noncomputable def witnessPRNG : PRNG :=
  ⟨ℕ, fun _ => 0, fun lo hi s => (if s = 0 then lo else hi, s + 1),
   fun s => (0, s + 1), fun lo _ s => (lo, s + 1)⟩

theorem witnessPRNG_uniform : UniformInRange witnessPRNG := by
  intro lo hi s h
  show lo ≤ (if s = 0 then lo else hi) ∧ (if s = 0 then lo else hi) ≤ hi
  by_cases h0 : s = 0 <;> simp [h0, h]

theorem runDraws_succ {α : Type} (σ : Type) (f : σ → α × σ) (n : ℕ) (s : σ) :
    runDraws σ f (n + 1) s =
      ((f s).1 :: (runDraws σ f n (f s).2).1, (runDraws σ f n (f s).2).2) := by
  simp [runDraws]

theorem c9_asteroid_belt_invariants_witness :
    2.2 ≤ (drawAsteroid witnessPRNG (witnessPRNG.seed 456)).1.distance_au ∧
    (drawAsteroid witnessPRNG (witnessPRNG.seed 456)).1.distance_au ≤ 3.2 := by
  have hmem : (drawAsteroid witnessPRNG (witnessPRNG.seed 456)).1 ∈
      (genAsteroids witnessPRNG (witnessPRNG.seed 0)).1 := by
    show _ ∈ (runDraws _ _ 300 _).1
    rw [show (300 : ℕ) = 299 + 1 from rfl, runDraws_succ]
    exact List.mem_cons_self _ _
  have hmem2 : (drawAsteroid witnessPRNG
      (drawAsteroid witnessPRNG (witnessPRNG.seed 456)).2).1 ∈
      (genAsteroids witnessPRNG (witnessPRNG.seed 0)).1 := by
    show _ ∈ (runDraws _ _ 300 _).1
    rw [show (300 : ℕ) = 299 + 1 from rfl, runDraws_succ,
      show (299 : ℕ) = 298 + 1 from rfl, runDraws_succ]
    exact List.mem_cons_of_mem _ (List.mem_cons_self _ _)
  have h1 : (drawAsteroid witnessPRNG (witnessPRNG.seed 456)).1.distance_au = 2.2 := rfl
  have h2 : (drawAsteroid witnessPRNG
      (drawAsteroid witnessPRNG (witnessPRNG.seed 456)).2).1.distance_au = 3.2 := rfl
  have hlt : (drawAsteroid witnessPRNG (witnessPRNG.seed 456)).1.distance_au <
      (drawAsteroid witnessPRNG
        (drawAsteroid witnessPRNG (witnessPRNG.seed 456)).2).1.distance_au := by
    rw [h1, h2]; norm_num
  exact (c9_asteroid_belt_invariants witnessPRNG witnessPRNG_uniform _ _ hmem 0
    (by norm_num) _ hmem2 hlt).1

/-! ## Claim C2: analysis of the two variants' Kepler positions -/

/-- The Kepler residual `E - e sin E - M`, the function whose root the
Newton loop chases; used only to analyse the iterates. -/
noncomputable def kepF (e M E : ℝ) : ℝ := E - e * Real.sin E - M

theorem sin_sub_le (x y : ℝ) (h : x ≤ y) : Real.sin y - Real.sin x ≤ y - x := by
  have habs : Real.sin y - Real.sin x ≤ |Real.sin y - Real.sin x| := le_abs_self _
  have h1 : |Real.sin y - Real.sin x| ≤ |y - x| := by
    rw [Real.sin_sub_sin, abs_mul, abs_mul]
    have h2 : |Real.sin ((y - x) / 2)| ≤ |(y - x) / 2| := Real.abs_sin_le_abs
    have h3 : |Real.cos ((y + x) / 2)| ≤ 1 := Real.abs_cos_le_one _
    have h4 : |(y - x) / 2| = |y - x| / 2 := by rw [abs_div]; norm_num
    have h5 : |(2 : ℝ)| = 2 := by norm_num
    calc |(2 : ℝ)| * |Real.sin ((y - x) / 2)| * |Real.cos ((y + x) / 2)|
        ≤ |(2 : ℝ)| * |(y - x) / 2| * 1 := by
          apply mul_le_mul _ h3 (abs_nonneg _) (by positivity)
          exact mul_le_mul le_rfl h2 (abs_nonneg _) (abs_nonneg _)
      _ = |y - x| := by rw [h5, h4]; ring
  have h6 : |y - x| = y - x := abs_of_nonneg (by linarith)
  linarith

/-- On `[0, pi]` the tangent line of `sin` at `x` lies above the graph:
`sin y - sin x ≤ cos x * (y - x)` (concavity of `sin` there). -/
theorem sin_tangent_above (x y : ℝ) (hx0 : 0 ≤ x) (hxpi : x ≤ Real.pi)
    (hy0 : 0 ≤ y) (hypi : y ≤ Real.pi) :
    Real.sin y - Real.sin x ≤ Real.cos x * (y - x) := by
  set v : ℝ → ℝ := fun t => Real.sin x + Real.cos x * (t - x) - Real.sin t with hv
  have hder : ∀ t : ℝ, HasDerivAt v (Real.cos x - Real.cos t) t := by
    intro t
    have h1 : HasDerivAt (fun u : ℝ => u - x) 1 t := (hasDerivAt_id t).sub_const x
    have h2 : HasDerivAt (fun u : ℝ => Real.cos x * (u - x)) (Real.cos x * 1) t :=
      h1.const_mul (Real.cos x)
    have h3 : HasDerivAt (fun u : ℝ => Real.sin x + Real.cos x * (u - x))
        (Real.cos x * 1) t := h2.const_add (Real.sin x)
    have h4 := h3.sub (Real.hasDerivAt_sin t)
    simpa using h4
  have hdiff : Differentiable ℝ v := fun t => (hder t).differentiableAt
  have hcont : Continuous v := hdiff.continuous
  have hvx : v x = 0 := by simp [hv]
  have key : 0 ≤ v y := by
    rcases le_total x y with hxy | hyx
    · have hmono : MonotoneOn v (Set.Icc x Real.pi) :=
        monotoneOn_of_deriv_nonneg (convex_Icc _ _) hcont.continuousOn
          (fun t _ => (hder t).differentiableAt.differentiableWithinAt)
          (fun t ht => by
            rw [interior_Icc] at ht
            rw [(hder t).deriv]
            have := Real.cos_le_cos_of_nonneg_of_le_pi hx0 ht.2.le ht.1.le
            linarith)
      have := hmono (Set.mem_Icc.mpr ⟨le_refl x, hxpi⟩)
        (Set.mem_Icc.mpr ⟨hxy, hypi⟩) hxy
      linarith
    · have hanti : AntitoneOn v (Set.Icc 0 x) :=
        antitoneOn_of_deriv_nonpos (convex_Icc _ _) hcont.continuousOn
          (fun t _ => (hder t).differentiableAt.differentiableWithinAt)
          (fun t ht => by
            rw [interior_Icc] at ht
            rw [(hder t).deriv]
            have := Real.cos_le_cos_of_nonneg_of_le_pi ht.1.le hxpi ht.2.le
            linarith)
      have := hanti (Set.mem_Icc.mpr ⟨hy0, hyx⟩)
        (Set.mem_Icc.mpr ⟨hx0, le_refl x⟩) hyx
      linarith
  simp only [hv] at key
  linarith

theorem kepF_sub_lower (e : ℝ) (he0 : 0 ≤ e) (_he1 : e ≤ 1) (M x y : ℝ)
    (h : x ≤ y) : (1 - e) * (y - x) ≤ kepF e M y - kepF e M x := by
  have hs := sin_sub_le x y h
  have hmul : e * (Real.sin y - Real.sin x) ≤ e * (y - x) :=
    mul_le_mul_of_nonneg_left hs he0
  simp only [kepF]
  nlinarith

/-- The Newton iterates for Kepler's equation: starting from a mean anomaly
`M` in `(0, pi)` with room `M + e/(1-e) < pi`, every iterate from the first
on stays in `(M, M + e/(1-e)]` and has nonnegative residual. -/
theorem newton_invariant (e M : ℝ) (he0 : 0 < e) (he1 : e < 1) (hM0 : 0 < M)
    (hB : M + e / (1 - e) < Real.pi) (hM2 : e / (1 - e) / (1 - e) ≤ M) :
    ∀ n : ℕ, 1 ≤ n →
      M < keplerE e M n ∧ keplerE e M n ≤ M + e / (1 - e) ∧
        0 ≤ kepF e M (keplerE e M n) := by
  have hD : 0 ≤ e / (1 - e) := div_nonneg he0.le (by linarith)
  have hMpi : M < Real.pi := by linarith
  have hsinM : 0 < Real.sin M := Real.sin_pos_of_pos_of_lt_pi hM0 hMpi
  have hden : ∀ E : ℝ, 0 < 1 - e * Real.cos E := by
    intro E
    have h1 := Real.cos_le_one E
    nlinarith
  have base : M < keplerE e M 1 ∧ keplerE e M 1 ≤ M + e / (1 - e) ∧
      0 ≤ kepF e M (keplerE e M 1) := by
    have hE1 : keplerE e M 1 = M + e * Real.sin M / (1 - e * Real.cos M) := by
      show newtonStep e M M = _
      simp only [newtonStep]
      have hne := ne_of_gt (hden M)
      field_simp
    have hq : 0 < e * Real.sin M / (1 - e * Real.cos M) :=
      div_pos (mul_pos he0 hsinM) (hden M)
    have hqle : e * Real.sin M / (1 - e * Real.cos M) ≤ e / (1 - e) := by
      apply div_le_div₀ he0.le ?_ (by linarith) ?_
      · nlinarith [Real.sin_le_one M]
      · nlinarith [Real.cos_le_one M]
    have hlt : M < keplerE e M 1 := by rw [hE1]; linarith
    have hle : keplerE e M 1 ≤ M + e / (1 - e) := by rw [hE1]; linarith
    refine ⟨hlt, hle, ?_⟩
    have htan := sin_tangent_above M (keplerE e M 1) hM0.le hMpi.le
      (by linarith) (by linarith)
    have hmul := mul_le_mul_of_nonneg_left htan he0.le
    have hdiffq : keplerE e M 1 - M = e * Real.sin M / (1 - e * Real.cos M) := by
      rw [hE1]; ring
    have hcancel : (keplerE e M 1 - M) * (1 - e * Real.cos M) = e * Real.sin M := by
      rw [hdiffq, div_mul_cancel₀ _ (ne_of_gt (hden M))]
    simp only [kepF]
    nlinarith [hmul, hcancel]
  have step : ∀ E : ℝ, M < E → E ≤ M + e / (1 - e) → 0 ≤ kepF e M E →
      M < newtonStep e M E ∧ newtonStep e M E ≤ M + e / (1 - e) ∧
        0 ≤ kepF e M (newtonStep e M E) := by
    intro E h1 h2 h3
    have hE0 : 0 < E := lt_trans hM0 h1
    have hEpi : E ≤ Real.pi := by linarith
    have hdE := hden E
    have hsinE : 0 ≤ Real.sin E := Real.sin_nonneg_of_nonneg_of_le_pi hE0.le hEpi
    have hkle : kepF e M E ≤ E - M := by
      simp only [kepF]
      nlinarith [mul_nonneg he0.le hsinE]
    have hq0 : 0 ≤ kepF e M E / (1 - e * Real.cos E) := div_nonneg h3 hdE.le
    have hqle : kepF e M E / (1 - e * Real.cos E) ≤ (E - M) / (1 - e) := by
      apply div_le_div₀ (by linarith) hkle (by linarith) ?_
      nlinarith [Real.cos_le_one E]
    have hstepEq : newtonStep e M E = E - kepF e M E / (1 - e * Real.cos E) := rfl
    have hle2 : (E - M) / (1 - e) ≤ e / (1 - e) / (1 - e) := by
      apply (div_le_div_iff_of_pos_right (by linarith : (0 : ℝ) < 1 - e)).mpr
      linarith
    have hqle3 : kepF e M E / (1 - e * Real.cos E) ≤ e / (1 - e) / (1 - e) :=
      le_trans hqle hle2
    have hE'0 : 0 ≤ newtonStep e M E := by
      rw [hstepEq]; linarith
    have hE'le : newtonStep e M E ≤ E := by rw [hstepEq]; linarith
    have hE'pi : newtonStep e M E ≤ Real.pi := le_trans hE'le hEpi
    have htan := sin_tangent_above E (newtonStep e M E) hE0.le hEpi hE'0 hE'pi
    have hmul := mul_le_mul_of_nonneg_left htan he0.le
    have hcancel : (newtonStep e M E - E) * (1 - e * Real.cos E) = -(kepF e M E) := by
      rw [hstepEq]
      field_simp
      ring
    have hkF' : 0 ≤ kepF e M (newtonStep e M E) := by
      simp only [kepF] at h3 hcancel ⊢
      nlinarith [hmul, hcancel]
    have hMlt : M < newtonStep e M E := by
      by_contra hcon
      push_neg at hcon
      have hlow := kepF_sub_lower e he0.le he1.le M (newtonStep e M E) M hcon
      have hkM : kepF e M M = -(e * Real.sin M) := by simp [kepF]
      have hprod : 0 ≤ (1 - e) * (M - newtonStep e M E) :=
        mul_nonneg (by linarith) (by linarith)
      have hpos := mul_pos he0 hsinM
      linarith [hlow, hkF']
    exact ⟨hMlt, le_trans hE'le h2, hkF'⟩
  intro n hn
  induction n with
  | zero => exact absurd hn (by norm_num)
  | succ n ih =>
    rcases Nat.eq_zero_or_pos n with rfl | hpos
    · exact base
    · obtain ⟨a, b, c⟩ := ih hpos
      exact step _ a b c

/-- For `0 ≤ e < 1` and an eccentric anomaly in `(0, pi)`, the true anomaly
computed through `atan2` also lies in `(0, pi)`. -/
theorem trueAnomaly_mem (e E : ℝ) (he0 : 0 ≤ e) (he1 : e < 1)
    (hE0 : 0 < E) (hEpi : E < Real.pi) :
    0 < trueAnomaly e E ∧ trueAnomaly e E < Real.pi := by
  have hpi := Real.pi_pos
  have hcosh : 0 < Real.cos (E / 2) :=
    Real.cos_pos_of_mem_Ioo ⟨by linarith, by linarith⟩
  have hsinh : 0 < Real.sin (E / 2) :=
    Real.sin_pos_of_pos_of_lt_pi (by linarith) (by linarith)
  have hsq1 : 0 < Real.sqrt (1 - e) := Real.sqrt_pos.mpr (by linarith)
  have hsq2 : 0 < Real.sqrt (1 + e) := Real.sqrt_pos.mpr (by linarith)
  have hxpos : 0 < Real.sqrt (1 - e) * Real.cos (E / 2) := mul_pos hsq1 hcosh
  have hypos : 0 < Real.sqrt (1 + e) * Real.sin (E / 2) := mul_pos hsq2 hsinh
  have harg : atan2 (Real.sqrt (1 + e) * Real.sin (E / 2))
      (Real.sqrt (1 - e) * Real.cos (E / 2)) =
      Real.arctan (Real.sqrt (1 + e) * Real.sin (E / 2) /
        (Real.sqrt (1 - e) * Real.cos (E / 2))) := by
    simp only [atan2, if_pos hxpos]
  have hratio : 0 < Real.sqrt (1 + e) * Real.sin (E / 2) /
      (Real.sqrt (1 - e) * Real.cos (E / 2)) := div_pos hypos hxpos
  have h1 : 0 < Real.arctan (Real.sqrt (1 + e) * Real.sin (E / 2) /
      (Real.sqrt (1 - e) * Real.cos (E / 2))) := by
    have := Real.arctan_strictMono hratio
    rwa [Real.arctan_zero] at this
  have h2 := Real.arctan_lt_pi_div_two (Real.sqrt (1 + e) * Real.sin (E / 2) /
    (Real.sqrt (1 - e) * Real.cos (E / 2)))
  constructor
  · simp only [trueAnomaly, harg]; linarith
  · simp only [trueAnomaly, harg]; linarith

/-- At Mars's keyframe 0 the first variant's Y-coordinate is strictly
negative while the second variant's is strictly positive: the Newton-solved
position is tilted with `y = -z sin i`, the approximated one with
`y = +z sin i`, and both in-plane `z` values are positive there. -/
theorem mars_keyframe0_y_signs :
    (planetPosV1 (calculate_distance 1.524) 0.093 1.9
        (radians (meanAnomalyDeg 134.6 687 0))).2.1 < 0 ∧
    0 < (planetPosV2 (calculate_distance 1.524) 0.093 1.9
        (radians (meanAnomalyDeg 134.6 687 0))).2.1 := by
  have hpi3 := Real.pi_gt_three
  have hpi := Real.pi_pos
  have hMdeg : meanAnomalyDeg 134.6 687 0 = 134.6 := by
    simp [meanAnomalyDeg]
  rw [hMdeg]
  have hM0 : 0 < radians 134.6 := by simp only [radians]; positivity
  have hMpi : radians 134.6 < Real.pi := by simp only [radians]; nlinarith
  have hB : radians 134.6 + 0.093 / (1 - 0.093) < Real.pi := by
    simp only [radians]; nlinarith
  have hM2 : (0.093 : ℝ) / (1 - 0.093) / (1 - 0.093) ≤ radians 134.6 := by
    simp only [radians]; nlinarith
  obtain ⟨hE5a, hE5b, _⟩ := newton_invariant 0.093 (radians 134.6)
    (by norm_num) (by norm_num) hM0 hB hM2 5 (by norm_num)
  have hE5pi : keplerE 0.093 (radians 134.6) 5 < Real.pi := lt_of_le_of_lt hE5b hB
  have hE50 : 0 < keplerE 0.093 (radians 134.6) 5 := lt_trans hM0 hE5a
  have hnu := trueAnomaly_mem 0.093 (keplerE 0.093 (radians 134.6) 5)
    (by norm_num) (by norm_num) hE50 hE5pi
  have hsinnu : 0 < Real.sin (trueAnomaly 0.093 (keplerE 0.093 (radians 134.6) 5)) :=
    Real.sin_pos_of_pos_of_lt_pi hnu.1 hnu.2
  have ha : 0 < calculate_distance 1.524 := calculate_distance_pos _ (by norm_num)
  have hr : 0 < calculate_distance 1.524 * (1 - (0.093 : ℝ) ^ 2) /
      (1 + 0.093 * Real.cos (trueAnomaly 0.093 (keplerE 0.093 (radians 134.6) 5))) := by
    apply div_pos
    · nlinarith
    · nlinarith [Real.neg_one_le_cos
        (trueAnomaly 0.093 (keplerE 0.093 (radians 134.6) 5))]
  have hsinI : 0 < Real.sin (radians 1.9) := by
    apply Real.sin_pos_of_pos_of_lt_pi
    · simp only [radians]; positivity
    · simp only [radians]; nlinarith
  constructor
  · show -(calculate_distance 1.524 * (1 - (0.093 : ℝ) ^ 2) /
        (1 + 0.093 * Real.cos (trueAnomaly 0.093 (keplerE 0.093 (radians 134.6) 5))) *
        Real.sin (trueAnomaly 0.093 (keplerE 0.093 (radians 134.6) 5))) *
        Real.sin (radians 1.9) < 0
    have := mul_pos (mul_pos hr hsinnu) hsinI
    linarith
  · have hsinM : 0 < Real.sin (radians 134.6) :=
      Real.sin_pos_of_pos_of_lt_pi hM0 hMpi
    have hE20 : 0 < radians 134.6 + 0.093 * Real.sin (radians 134.6) := by
      nlinarith
    have hE2pi : radians 134.6 + 0.093 * Real.sin (radians 134.6) < Real.pi := by
      have hs1 := Real.sin_le_one (radians 134.6)
      simp only [radians] at hs1 ⊢
      nlinarith
    have hsinE2 : 0 < Real.sin (radians 134.6 + 0.093 * Real.sin (radians 134.6)) :=
      Real.sin_pos_of_pos_of_lt_pi hE20 hE2pi
    have hb : 0 < calculate_distance 1.524 * Real.sqrt (1 - (0.093 : ℝ) ^ 2) :=
      mul_pos ha (Real.sqrt_pos.mpr (by norm_num))
    show 0 < calculate_distance 1.524 * Real.sqrt (1 - (0.093 : ℝ) ^ 2) *
        Real.sin (radians 134.6 + 0.093 * Real.sin (radians 134.6)) *
        Real.sin (radians 1.9)
    exact mul_pos (mul_pos hb hsinE2) hsinI

/-- C2 counterexample: the two variants do not compute the same position;
at Mars's keyframe 0 (mean anomaly 134.6 degrees) the Newton-solved variant
and the first-order-approximation variant give different points, their
Y-coordinates even having opposite signs. -/
theorem c2_counterexample :
    planetPosV1 (calculate_distance 1.524) 0.093 1.9
        (radians (meanAnomalyDeg 134.6 687 0)) ≠
      planetPosV2 (calculate_distance 1.524) 0.093 1.9
        (radians (meanAnomalyDeg 134.6 687 0)) := by
  intro h
  have h2 := congrArg (fun p : ℝ × ℝ × ℝ => p.2.1) h
  simp only at h2
  have hy := mars_keyframe0_y_signs
  rw [h2] at hy
  linarith [hy.1, hy.2]

/-- C2 corrected: the two variants share the mean-anomaly computation
keyframe for keyframe, but the positions they bake differ: the second
variant replaces the Newton solve by the first-order approximation
`E = M + e sin M` and tilts with the opposite Y sign, so already at Mars's
keyframe 0 the first variant's Y-coordinate is negative while the second
variant's is positive. -/
theorem c2_variants_not_equivalent :
    (∀ (s d : ℝ) (k : ℕ), meanAnomalyDeg s d k = meanAnomalyDegV2 s d k) ∧
    (planetPosV1 (calculate_distance 1.524) 0.093 1.9
        (radians (meanAnomalyDeg 134.6 687 0))).2.1 < 0 ∧
    0 < (planetPosV2 (calculate_distance 1.524) 0.093 1.9
        (radians (meanAnomalyDeg 134.6 687 0))).2.1 :=
  ⟨fun _ _ _ => rfl, mars_keyframe0_y_signs.1, mars_keyframe0_y_signs.2⟩
